import Mathlib

/-!
Verification development for the digital-shelf conjoint survey application.

The application configures "shelves" of products, generates conjoint price
matrices for them, runs AI-simulated surveys, and reports preference shares,
optimal prices and price elasticities.  This file gives a shallow embedding of
the arithmetic core of the application:

* `generatePriceMatrix` — server price-level matrix
  (src/server/routes/survey.ts, lines 700-722);
* `generatePriceLevels` — client price-level preview
  (src/client/src/pages/conjoint-configuration.tsx, lines 61-83);
* `generateConjointMatrix` — combination enumeration
  (src/server/routes/survey.ts, lines 725-749);
* `postConjointConfiguration` — the POST /api/shelves/:id/conjoint-configuration
  handler (routes registration file, lines 34-87);
* `runSurveyResults` — the result aggregation of POST /api/shelves/:id/run-survey
  (src/server/routes/survey.ts, lines 407-429);
* `combinationOptions` — option construction of GET /api/survey/:id
  (src/server/routes/survey.ts, lines 171-195);
* `calculateOptimalPrice` / `calculatePriceElasticity`
  (src/client/src/pages/analysis.tsx, lines 62-99);
* `getPersonaPreference` / `getSimulatedConsumerPreference` — the AI response
  parsers (src/server/routes/survey.ts, lines 752-803, and
  src/server/utils/simulate-utils.ts, lines 7-63).

Numbers: all persisted prices are integer cents (`integer` columns in
src/db/schema.ts), modelled as `ℤ`; intermediate JavaScript arithmetic is
modelled exactly over `ℚ`, except where the source can divide by zero — the
elasticity's division by `product.listPrice` — which `JSNumber` and
`calculatePriceElasticityJS` model with JavaScript `NaN`/infinity semantics.
`Math.round` is `jsRound`, and the JavaScript `x || d` fallback on nullable
integer fields (where `0` is falsy) is `jsOrI`.
Display-only fields (brand name, description, image URLs) are omitted: no
claim depends on them.
-/

/-- JavaScript `Math.round x` = `⌊x + 0.5⌋` (rounds halves toward positive
infinity). -/
def jsRound (q : ℚ) : ℤ := Int.floor (q + 1 / 2)

/-- JavaScript `x || d` for a nullable integer field: `null`, `undefined` and
`0` all fall back to the default. -/
def jsOrI : Option ℤ → ℤ → ℤ
  | some v, d => if v = 0 then d else v
  | none, d => d

/-- A product row, restricted to the fields the conjoint arithmetic reads:
`id`, `listPrice`, and the nullable `lowPrice` / `highPrice` (all integer
cents, src/db/schema.ts lines 17-33). -/
structure Product where
  id : ℤ
  listPrice : ℤ
  lowPrice : Option ℤ
  highPrice : Option ℤ
  deriving DecidableEq, Repr

/-- The effective low price used by `generatePriceMatrix`:
`product.lowPrice || Math.round(product.listPrice * 0.8)`. -/
def effectiveLowPrice (p : Product) : ℤ :=
  jsOrI p.lowPrice (jsRound ((p.listPrice : ℚ) * (8 / 10)))

/-- The effective high price used by `generatePriceMatrix`:
`product.highPrice || Math.round(product.listPrice * 1.2)`. -/
def effectiveHighPrice (p : Product) : ℤ :=
  jsOrI p.highPrice (jsRound ((p.listPrice : ℚ) * (12 / 10)))

/-- Server price matrix, from `generatePriceMatrix` in
src/server/routes/survey.ts lines 700-722.  Branches on the configured number
of price levels; any value other than 2, 3, 4, 5 falls through to the default
3-level matrix. -/
def generatePriceMatrix (product : Product) (priceLevels : ℤ) : List ℤ :=
  let lowPrice := jsOrI product.lowPrice (jsRound ((product.listPrice : ℚ) * (8 / 10)))
  let highPrice := jsOrI product.highPrice (jsRound ((product.listPrice : ℚ) * (12 / 10)))
  let listPrice := product.listPrice
  if priceLevels = 2 then
    [lowPrice, highPrice]
  else if priceLevels = 3 then
    [lowPrice, listPrice, highPrice]
  else if priceLevels = 4 then
    let quarterPoint := jsRound ((lowPrice : ℚ) + ((listPrice : ℚ) - (lowPrice : ℚ)) / 2)
    let threeQuarterPoint := jsRound ((listPrice : ℚ) + ((highPrice : ℚ) - (listPrice : ℚ)) / 2)
    [lowPrice, quarterPoint, threeQuarterPoint, highPrice]
  else if priceLevels = 5 then
    let p1 := jsRound ((lowPrice : ℚ) + ((listPrice : ℚ) - (lowPrice : ℚ)) / 3)
    let p2 := jsRound ((lowPrice : ℚ) + 2 * ((listPrice : ℚ) - (lowPrice : ℚ)) / 3)
    let p3 := jsRound ((listPrice : ℚ) + ((highPrice : ℚ) - (listPrice : ℚ)) / 3)
    let p4 := jsRound ((listPrice : ℚ) + 2 * ((highPrice : ℚ) - (listPrice : ℚ)) / 3)
    [lowPrice, p1, p2, p3, p4, highPrice]
  else
    [lowPrice, listPrice, highPrice]

/-- Client price preview, from `generatePriceLevels` in
src/client/src/pages/conjoint-configuration.tsx lines 61-83.  Written out
separately because claim C8 compares it with the server function. -/
def generatePriceLevels (product : Product) (levels : ℤ) : List ℤ :=
  let lowPrice := jsOrI product.lowPrice (jsRound ((product.listPrice : ℚ) * (8 / 10)))
  let highPrice := jsOrI product.highPrice (jsRound ((product.listPrice : ℚ) * (12 / 10)))
  let listPrice := product.listPrice
  if levels = 2 then
    [lowPrice, highPrice]
  else if levels = 3 then
    [lowPrice, listPrice, highPrice]
  else if levels = 4 then
    let quarterPoint := jsRound ((lowPrice : ℚ) + ((listPrice : ℚ) - (lowPrice : ℚ)) / 2)
    let threeQuarterPoint := jsRound ((listPrice : ℚ) + ((highPrice : ℚ) - (listPrice : ℚ)) / 2)
    [lowPrice, quarterPoint, threeQuarterPoint, highPrice]
  else if levels = 5 then
    let p1 := jsRound ((lowPrice : ℚ) + ((listPrice : ℚ) - (lowPrice : ℚ)) / 3)
    let p2 := jsRound ((lowPrice : ℚ) + 2 * ((listPrice : ℚ) - (lowPrice : ℚ)) / 3)
    let p3 := jsRound ((listPrice : ℚ) + ((highPrice : ℚ) - (listPrice : ℚ)) / 3)
    let p4 := jsRound ((listPrice : ℚ) + 2 * ((highPrice : ℚ) - (listPrice : ℚ)) / 3)
    [lowPrice, p1, p2, p3, p4, highPrice]
  else
    [lowPrice, listPrice, highPrice]

/-- One entry of a conjoint matrix row: a product together with the
`currentPrice` chosen for it (the `{ ...product, currentPrice: price }` spread
in `generateConjointMatrix`). -/
structure PricedProduct where
  product : Product
  currentPrice : ℤ
  deriving DecidableEq, Repr

/-- The recursive enumeration inside `generateConjointMatrix`
(src/server/routes/survey.ts lines 735-747): a depth-first walk that, for each
product in order, tries each of its prices.  `productPrices` pairs each product
with its price list. -/
def generateCombinations : List (Product × List ℤ) → List (List PricedProduct)
  | [] => [[]]
  | (p, prices) :: rest =>
      prices.flatMap fun price =>
        (generateCombinations rest).map fun comb => ⟨p, price⟩ :: comb

/-- `generateConjointMatrix` from src/server/routes/survey.ts lines 725-749:
pairs every product with its price matrix and enumerates all combinations. -/
def generateConjointMatrix (products : List Product) (priceLevels : ℤ) :
    List (List PricedProduct) :=
  generateCombinations (products.map fun product =>
    (product, generatePriceMatrix product priceLevels))

/-- The `combinationCount` recorded by POST /api/shelves/:id/conjoint-configuration:
`Math.pow(priceLevels, shelf.products.length)` (routes registration file,
line 70). -/
def conjointCombinationCount (priceLevels : ℚ) (numProducts : ℕ) : ℚ :=
  priceLevels ^ numProducts

/-- A JSON body value, as far as the `priceLevels` validation in the
POST /api/shelves/:id/conjoint-configuration handler can distinguish one:
absent, null, a number, a string, or a boolean. -/
inductive JSVal where
  | undefined
  | null
  | num (q : ℚ)
  | str (s : String)
  | bool (b : Bool)
  deriving DecidableEq

/-- The validation test of the handler (routes registration file, line 45):
`!priceLevels || typeof priceLevels !== 'number' || priceLevels < 2 || priceLevels > 5`.
For a number `q` the test reduces to `q = 0 ∨ q < 2 ∨ q > 5` (zero is falsy);
every non-number value fails either the truthiness or the `typeof` test. -/
def invalidPriceLevels : JSVal → Bool
  | JSVal.num q => decide (q = 0) || decide (q < 2) || decide (5 < q)
  | _ => true

/-- The numeric value of a body value; the handler only reads it after the
`typeof priceLevels !== 'number'` check, so the default is never reached on
the paths modelled. -/
def jsToNum : JSVal → ℚ
  | JSVal.num q => q
  | _ => 0

/-- The configuration row inserted into `conjoint_configurations` (fields
`priceLevels`, `combinationCount`, `estimatedDuration`). -/
structure ConjointConfigRow where
  priceLevels : ℚ
  combinationCount : ℚ
  estimatedDuration : ℚ
  deriving DecidableEq

/-- The observable outcome of POST /api/shelves/:id/conjoint-configuration:
401, 400, 404, or 200 with the inserted row.  A row is inserted exactly in the
`ok` case. -/
inductive ConjointConfigResponse where
  | unauthorized
  | badRequest
  | notFound
  | ok (inserted : ConjointConfigRow)
  deriving DecidableEq

/-- POST /api/shelves/:id/conjoint-configuration (routes registration file,
lines 34-87).  `shelf` is `none` when no shelf with the id exists, otherwise
`some` of the shelf product list.  Checks happen in source order: auth, then
`priceLevels` validation, then shelf lookup, then the empty-shelf check; on
success the inserted row has `combinationCount = priceLevels ^ products.length`
and `estimatedDuration = combinationCount * 30`. -/
def postConjointConfiguration (userId : Option ℤ) (priceLevels : JSVal)
    (shelf : Option (List Product)) : ConjointConfigResponse :=
  if userId.isNone then ConjointConfigResponse.unauthorized
  else if invalidPriceLevels priceLevels then ConjointConfigResponse.badRequest
  else
    match shelf with
    | none => ConjointConfigResponse.notFound
    | some prods =>
        if prods.length = 0 then ConjointConfigResponse.badRequest
        else
          let q := jsToNum priceLevels
          let combinationCount := q ^ prods.length
          ConjointConfigResponse.ok ⟨q, combinationCount, combinationCount * 30⟩

/-- Per-product tally accumulated by the run-survey simulation loop
(src/server/routes/survey.ts lines 362-405): a selection count and the list of
`currentPrice` values at the recorded selections. -/
structure SimResult where
  selections : ℕ
  prices : List ℤ
  deriving DecidableEq

/-- `totalSelections` of the run-survey handler (lines 408-409): the sum of
`selections` over `Object.values(simulationResults)`.  The record has one key
per distinct product id of the lineup (initialized once per product at lines
365-370), hence the sum over the deduplicated id list. -/
def totalSelections (productsData : List Product) (sim : ℤ → SimResult) : ℕ :=
  (((productsData.map Product.id).dedup).map fun i => (sim i).selections).sum

/-- One reported product of the run-survey response (lines 417-428),
restricted to its numeric fields. -/
structure ReportedProduct where
  optimalPrice : ℚ
  preferenceShare : ℚ
  deriving DecidableEq

/-- The result list built by POST /api/shelves/:id/run-survey (lines 407-429)
from the lineup and the simulation tallies: `optimalPrice` is the mean
recorded selection price (fallback: the list price) converted from cents to
dollars, and `preferenceShare` is the product's share of all selections
(fallback: the uniform share). -/
def runSurveyResults (productsData : List Product) (sim : ℤ → SimResult) :
    List ReportedProduct :=
  let total := totalSelections productsData sim
  productsData.map fun product =>
    let result := sim product.id
    let optimalPrice : ℚ :=
      if 0 < result.prices.length then
        (result.prices.sum : ℚ) / (result.prices.length : ℚ)
      else (product.listPrice : ℚ)
    { optimalPrice := optimalPrice / 100
      preferenceShare :=
        if 0 < total then (result.selections : ℚ) / (total : ℚ)
        else 1 / (productsData.length : ℚ) }

/-- The arithmetic mean of a list of integer prices (the claim-side reading of
`prices.reduce((sum, price) => sum + price, 0) / prices.length`). -/
def listMean (l : List ℤ) : ℚ := (l.sum : ℚ) / (l.length : ℚ)

/-- The `productsWithPrices` list of GET /api/survey/:id (lines 153-169): each
lineup product paired with its price matrix. -/
def productsWithPrices (productsData : List Product) (priceLevels : ℤ) :
    List (Product × List ℤ) :=
  productsData.map fun product => (product, generatePriceMatrix product priceLevels)

/-- The options of one product combination of GET /api/survey/:id (lines
171-189): the randomly shuffled product list is cut to
`Math.min(6, productsWithPrices.length)` entries and one price option is
chosen per kept product.  `shuffled` is the permutation the random sort
produced and `pick` the random price choice. -/
def combinationOptions (shuffled : List (Product × List ℤ))
    (pick : Product × List ℤ → ℤ) : List (Product × ℤ) :=
  (shuffled.take (min 6 shuffled.length)).map fun pp => (pp.1, pick pp)

/-- A product analysis entry as consumed by the analysis page
(src/client/src/pages/analysis.tsx): the responses record is kept as the list
of its per-respondent-type counts. -/
structure ProductAnalysis where
  listPrice : ℤ
  lowPrice : Option ℤ
  highPrice : Option ℤ
  responses : List ℕ
  deriving DecidableEq

/-- `calculateOptimalPrice` from src/client/src/pages/analysis.tsx lines
62-80.  `analysisTotal` is `analysis.totalResponses`; the `!analysis` guard is
outside the model (the caller has the data). -/
def calculateOptimalPrice (analysisTotal : ℕ) (pa : ProductAnalysis) : ℤ :=
  let totalResponses := pa.responses.sum
  if totalResponses = 0 then pa.listPrice
  else
    let responseProportion : ℚ := (totalResponses : ℚ) / (analysisTotal : ℚ)
    let basePrice := pa.listPrice
    let lowPrice := jsOrI pa.lowPrice (jsRound ((basePrice : ℚ) * (8 / 10)))
    let highPrice := jsOrI pa.highPrice (jsRound ((basePrice : ℚ) * (12 / 10)))
    basePrice +
      (if 1 / 2 < responseProportion then
        jsRound (((highPrice : ℚ) - (basePrice : ℚ)) * (responseProportion - 1 / 2) * 2)
      else
        jsRound (((lowPrice : ℚ) - (basePrice : ℚ)) * (1 - responseProportion * 2)))

/-- `calculatePriceElasticity` from src/client/src/pages/analysis.tsx lines
83-99: the percentage change in quantity over the percentage change in price,
in absolute value, guarded by `if (priceChange === 0) return 0`.  This exact
rational model matches the source only while every divisor is non-zero
(`listPrice ≠ 0` and `analysisTotal ≠ 0`): the source divides by
`product.listPrice` with no guard, and at a zero list price JavaScript
produces `NaN` or an infinity where the rational convention `x / 0 = 0` would
silently make the guard fire.  `calculatePriceElasticityJS` below models that
division with JavaScript semantics. -/
def calculatePriceElasticity (analysisTotal : ℕ) (pa : ProductAnalysis) : ℚ :=
  let totalResponses := pa.responses.sum
  let marketShare : ℚ := (totalResponses : ℚ) / (analysisTotal : ℚ)
  let optimalPrice := calculateOptimalPrice analysisTotal pa
  let priceChange : ℚ := ((optimalPrice : ℚ) - (pa.listPrice : ℚ)) / (pa.listPrice : ℚ)
  let quantityChange : ℚ := (marketShare - 1 / 2) / (1 / 2)
  if priceChange = 0 then 0
  else |quantityChange / priceChange|

/-- A JavaScript number as far as the elasticity arithmetic can produce one: a
finite rational, `NaN`, or a signed infinity.  Needed because the source
divides by `product.listPrice` without a guard and a zero list price is
storable (the product form accepts price 0). -/
inductive JSNumber where
  | val (q : ℚ)
  | nan
  | posInf
  | negInf
  deriving DecidableEq, Repr

/-- JavaScript division of two finite numbers: a finite quotient for a
non-zero divisor, `0 / 0 = NaN`, and `x / 0 = ±Infinity` for non-zero `x`
(the stored integers carry no negative zero). -/
def jsDivQ (a b : ℚ) : JSNumber :=
  if b ≠ 0 then JSNumber.val (a / b)
  else if a = 0 then JSNumber.nan
  else if 0 < a then JSNumber.posInf
  else JSNumber.negInf

/-- JavaScript division of a finite number by a possibly non-finite one:
`x / NaN = NaN` and `x / ±Infinity = 0` for finite `x`. -/
def jsDivFiniteBy (a : ℚ) : JSNumber → JSNumber
  | JSNumber.val b => jsDivQ a b
  | JSNumber.nan => JSNumber.nan
  | JSNumber.posInf => JSNumber.val 0
  | JSNumber.negInf => JSNumber.val 0

/-- `Math.abs` on a JavaScript number: `Math.abs(NaN) = NaN` and
`Math.abs(±Infinity) = Infinity`. -/
def jsAbs : JSNumber → JSNumber
  | JSNumber.val q => JSNumber.val |q|
  | JSNumber.nan => JSNumber.nan
  | JSNumber.posInf => JSNumber.posInf
  | JSNumber.negInf => JSNumber.posInf

/-- The `priceChange === 0` test: false on `NaN` and on the infinities. -/
def JSNumber.isZero : JSNumber → Bool
  | JSNumber.val q => decide (q = 0)
  | _ => false

/-- `calculatePriceElasticity` with JavaScript division semantics on the
unguarded `priceChange = (optimalPrice - listPrice) / listPrice` division
(src/client/src/pages/analysis.tsx line 91): at `listPrice = 0` that division
yields `NaN` or a signed infinity, `priceChange === 0` is then false, and the
special value propagates through the final division and `Math.abs`.  The
market-share arithmetic and `calculateOptimalPrice` stay over exact
rationals, which matches the source whenever `analysisTotal ≠ 0`. -/
def calculatePriceElasticityJS (analysisTotal : ℕ) (pa : ProductAnalysis) :
    JSNumber :=
  let totalResponses := pa.responses.sum
  let marketShare : ℚ := (totalResponses : ℚ) / (analysisTotal : ℚ)
  let optimalPrice := calculateOptimalPrice analysisTotal pa
  let priceChange : JSNumber :=
    jsDivQ ((optimalPrice : ℚ) - (pa.listPrice : ℚ)) (pa.listPrice : ℚ)
  let quantityChange : ℚ := (marketShare - 1 / 2) / (1 / 2)
  if priceChange.isZero then JSNumber.val 0
  else jsAbs (jsDivFiniteBy quantityChange priceChange)

/-- The first maximal run of decimal digits in a character list: the match of
the regular expression `\d+` against the string. -/
def firstDigitRun : List Char → Option (List Char)
  | [] => none
  | c :: cs =>
      if c.isDigit then some (c :: cs.takeWhile Char.isDigit)
      else firstDigitRun cs

/-- `parseInt(match[0], 10)` on a digit run. -/
def digitsToNat (l : List Char) : ℕ :=
  l.foldl (fun acc c => 10 * acc + (c.toNat - 48)) 0

/-- `getPersonaPreference` from src/server/routes/survey.ts lines 752-803,
restricted to its response handling (lines 788-798): the model call and its
errors are outside the model, so the GPT reply is the input.  `none` models
every `return null` path; otherwise the id of the product at the extracted
1-based position is returned (the index is in range there, so the lookup
succeeds). -/
def getPersonaPreference (response : Option String) (products : List Product) :
    Option ℤ :=
  match response with
  | none => none
  | some resp =>
      match firstDigitRun resp.data with
      | none => none
      | some ds =>
          if (digitsToNat ds : ℤ) - 1 < 0 ∨
              (products.length : ℤ) ≤ (digitsToNat ds : ℤ) - 1 then none
          else (products[((digitsToNat ds : ℤ) - 1).toNat]?).map Product.id

/-- `getSimulatedConsumerPreference` from src/server/utils/simulate-utils.ts
lines 7-63; its response handling (lines 47-58) is character-for-character the
same extraction as in `getPersonaPreference`. -/
def getSimulatedConsumerPreference (response : Option String)
    (products : List Product) : Option ℤ :=
  match response with
  | none => none
  | some resp =>
      match firstDigitRun resp.data with
      | none => none
      | some ds =>
          if (digitsToNat ds : ℤ) - 1 < 0 ∨
              (products.length : ℤ) ≤ (digitsToNat ds : ℤ) - 1 then none
          else (products[((digitsToNat ds : ℤ) - 1).toNat]?).map Product.id

/-! ### Concrete sample data used by witnesses and counterexamples -/

/-- A sample product: list price 10.00, price range 8.00 - 12.00 (cents). -/
def demoProduct : Product := ⟨1, 1000, some 800, some 1200⟩

/-- A second sample product with a distinct id. -/
def demoProduct2 : Product := ⟨2, 500, some 400, some 600⟩

/-- A sample two-product shelf lineup. -/
def demoLineup : List Product := [demoProduct, demoProduct2]

/-- A seven-product shelf (the POST /api/shelves/:id/products endpoint puts no
upper bound on the number of products of a shelf). -/
def demoSeven : List Product :=
  [⟨1, 1000, some 800, some 1200⟩, ⟨2, 1000, some 800, some 1200⟩,
   ⟨3, 1000, some 800, some 1200⟩, ⟨4, 1000, some 800, some 1200⟩,
   ⟨5, 1000, some 800, some 1200⟩, ⟨6, 1000, some 800, some 1200⟩,
   ⟨7, 1000, some 800, some 1200⟩]

/-- Sample simulation tallies for `demoLineup`: product 1 selected twice (at
9.00 and 11.00), product 2 selected once (at 4.50). -/
def demoSim : ℤ → SimResult := fun i =>
  if i = 1 then ⟨2, [900, 1100]⟩ else ⟨1, [450]⟩

/-- A sample analysis entry: 3 synthetic and 1 human response. -/
def demoAnalysis : ProductAnalysis := ⟨1000, some 800, some 1200, [3, 1]⟩

/-- A product analysis with a zero list price (storable: the product form
accepts price 0) and no responses of its own, inside an analysis that has
responses on other products. -/
def priceZeroAnalysis : ProductAnalysis := ⟨0, none, none, []⟩

/-! ### Helper lemmas -/

/-- `Math.round` of an integer is that integer. -/
lemma jsRound_intCast (n : ℤ) : jsRound (n : ℚ) = n := by
  unfold jsRound
  rw [add_comm, Int.floor_add_int]
  norm_num [Int.floor_eq_zero_iff, Set.mem_Ico]

/-- `Math.round` is monotone. -/
lemma jsRound_le_jsRound {x y : ℚ} (h : x ≤ y) : jsRound x ≤ jsRound y :=
  Int.floor_le_floor (by linarith)

/-- An integer lower bound on the argument is a lower bound on the rounding. -/
lemma le_jsRound (a : ℤ) {x : ℚ} (h : (a : ℚ) ≤ x) : a ≤ jsRound x := by
  have := jsRound_le_jsRound h
  rwa [jsRound_intCast] at this

/-- An integer upper bound on the argument is an upper bound on the rounding. -/
lemma jsRound_le (b : ℤ) {x : ℚ} (h : x ≤ (b : ℚ)) : jsRound x ≤ b := by
  have := jsRound_le_jsRound h
  rwa [jsRound_intCast] at this

/-- Distributing a list sum over a constant divisor. -/
lemma list_sum_map_div {α : Type} (l : List α) (f : α → ℚ) (c : ℚ) :
    (l.map fun x => f x / c).sum = (l.map f).sum / c := by
  induction l with
  | nil => simp
  | cons hd tl ih => simp [ih, add_div]

/-- The sum of a constant list. -/
lemma list_sum_map_const {α : Type} (l : List α) (c : ℚ) :
    (l.map fun _ => c).sum = (l.length : ℚ) * c := by
  induction l with
  | nil => simp
  | cons hd tl ih => simp [ih]; ring

/-- Every row produced by the combination enumeration has one entry per
product passed in. -/
lemma length_of_mem_generateCombinations :
    ∀ (l : List (Product × List ℤ)) (row : List PricedProduct),
      row ∈ generateCombinations l → row.length = l.length := by
  intro l
  induction l with
  | nil =>
      intro row h
      simp only [generateCombinations, List.mem_singleton] at h
      simp [h]
  | cons hd tl ih =>
      intro row h
      rcases hd with ⟨p, prices⟩
      simp only [generateCombinations, List.mem_flatMap, List.mem_map] at h
      obtain ⟨price, hprice, comb, hcomb, rfl⟩ := h
      simp [ih comb hcomb]

/-! ### Claim theorems -/

/-- C1: the price-level matrix does NOT always have `priceLevels` entries.
For 2, 3 and 4 configured levels the matrix has exactly that many prices, but
for 5 configured levels it has 6 prices (`[low, p1, p2, p3, p4, high]`,
src/server/routes/survey.ts lines 713-718), on the client preview as well, so
up to 6 prices are tested per product while the recorded
`combinationCount = priceLevels ^ products` and the UI text (price points
"between low and high prices (2-5)") promise 5. -/
theorem generatePriceMatrix_level_counts (p : Product) :
    (generatePriceMatrix p 2).length = 2 ∧
    (generatePriceMatrix p 3).length = 3 ∧
    (generatePriceMatrix p 4).length = 4 ∧
    (generatePriceMatrix p 5).length = 6 ∧
    (generatePriceLevels p 5).length = 6 := by
  norm_num [generatePriceMatrix, generatePriceLevels]

/-- C2: on a one-product shelf configured with 5 price levels, the conjoint
matrix actually enumerated has 6 rows while the
POST /api/shelves/:id/conjoint-configuration endpoint records
`combinationCount = 5 ^ 1 = 5`: the recorded count and the enumeration
disagree. -/
theorem conjointMatrix_count_mismatch :
    (generateConjointMatrix [demoProduct] 5).length = 6 ∧
    conjointCombinationCount 5 1 = 5 := by
  constructor
  · decide
  · norm_num [conjointCombinationCount]

/-- C8: the client-side price preview `generatePriceLevels` and the
server-side `generatePriceMatrix` return the same price list for every
product (any combination of set or unset low/high prices) and every level
count. -/
theorem generatePriceLevels_eq_generatePriceMatrix (p : Product) (n : ℤ) :
    generatePriceLevels p n = generatePriceMatrix p n := rfl

/-- Shared safety argument for the two AI-preference parsers: the extraction
either rejects the response or returns the id of a listed product. -/
lemma getPersonaPreference_none_or_mem (resp : Option String)
    (prods : List Product) :
    getPersonaPreference resp prods = none ∨
      ∃ p ∈ prods, getPersonaPreference resp prods = some p.id := by
  rcases resp with _ | s
  · exact Or.inl rfl
  · rcases hds : firstDigitRun s.data with _ | ds
    · left
      simp only [getPersonaPreference, hds]
    · simp only [getPersonaPreference, hds]
      by_cases hrange :
        (digitsToNat ds : ℤ) - 1 < 0 ∨
          (prods.length : ℤ) ≤ (digitsToNat ds : ℤ) - 1
      · left
        rw [if_pos hrange]
      · have h0 : ¬((digitsToNat ds : ℤ) - 1 < 0) := fun h => hrange (Or.inl h)
        have hlt : ¬((prods.length : ℤ) ≤ (digitsToNat ds : ℤ) - 1) :=
          fun h => hrange (Or.inr h)
        have hkn : ((digitsToNat ds : ℤ) - 1).toNat < prods.length := by omega
        right
        refine ⟨prods[((digitsToNat ds : ℤ) - 1).toNat], List.getElem_mem hkn, ?_⟩
        rw [if_neg hrange, List.getElem?_eq_getElem hkn]
        rfl

/-- The consumer-simulation parser is the same extraction as the persona
parser. -/
lemma getSimulatedConsumerPreference_eq (resp : Option String)
    (prods : List Product) :
    getSimulatedConsumerPreference resp prods = getPersonaPreference resp prods := rfl

/-- C9: neither AI-preference parser fabricates a product: for every model
response (including a missing one) and every product list, each parser
returns `none` or the id of one of the products passed in. -/
theorem preference_parsers_return_shown_product (resp : Option String)
    (prods : List Product) :
    (getPersonaPreference resp prods = none ∨
      ∃ p ∈ prods, getPersonaPreference resp prods = some p.id) ∧
    (getSimulatedConsumerPreference resp prods = none ∨
      ∃ p ∈ prods, getSimulatedConsumerPreference resp prods = some p.id) := by
  refine ⟨getPersonaPreference_none_or_mem resp prods, ?_⟩
  rw [getSimulatedConsumerPreference_eq]
  exact getPersonaPreference_none_or_mem resp prods

/-- C5 counterexample: on a seven-product shelf (nothing caps the number of
shelf products) every row of the conjoint matrix contains 7 products, so the
claim that every row contains at most 6 products is false. -/
theorem conjointMatrix_row_not_bounded_by_six :
    ¬ ∀ row ∈ generateConjointMatrix demoSeven 2, row.length ≤ 6 := by
  decide

/-- C5 (amended): each product combination of GET /api/survey/:id contains
`min 6 n` options, where `n` is the number of lineup products; each row of the
conjoint matrix used by the simulated run contains exactly one entry per shelf
product — which is at most 6 only when the shelf itself has at most 6
products. -/
theorem survey_combination_sizes :
    (∀ (productsData : List Product) (priceLevels : ℤ)
        (shuffled : List (Product × List ℤ)) (pick : Product × List ℤ → ℤ),
        shuffled.Perm (productsWithPrices productsData priceLevels) →
        (combinationOptions shuffled pick).length = min 6 productsData.length) ∧
    (∀ (products : List Product) (priceLevels : ℤ) (row : List PricedProduct),
        row ∈ generateConjointMatrix products priceLevels →
        row.length = products.length) := by
  constructor
  · intro d n shuffled pick hperm
    have hlen : shuffled.length = d.length := by
      rw [hperm.length_eq]
      simp [productsWithPrices]
    simp only [combinationOptions, List.length_map, List.length_take, hlen]
    omega
  · intro prods n row hrow
    have h := length_of_mem_generateCombinations _ row hrow
    simpa using h

/-- C5 witness: the amended bound evaluated on concrete data — a two-product
lineup yields `min 6 2` options, and the first row of a one-product,
two-level conjoint matrix has exactly one entry. -/
theorem survey_combination_sizes_witness :
    (combinationOptions (productsWithPrices demoLineup 3)
        (fun pp => pp.1.listPrice)).length = min 6 demoLineup.length ∧
    ([(⟨demoProduct, 800⟩ : PricedProduct)]).length = [demoProduct].length :=
  ⟨survey_combination_sizes.1 demoLineup 3 (productsWithPrices demoLineup 3)
      (fun pp => pp.1.listPrice) (List.Perm.refl _),
    survey_combination_sizes.2 [demoProduct] 2 [⟨demoProduct, 800⟩] (by decide)⟩

/-- C10: whenever the effective prices satisfy
`lowPrice ≤ listPrice ≤ highPrice` (after the 0.8x / 1.2x fallbacks), every
price-matrix list is nondecreasing, starts with the low price, ends with the
high price, and stays inside `[lowPrice, highPrice]` — for every configured
level count, the default branch included. -/
theorem generatePriceMatrix_sorted_bounds (p : Product) (n : ℤ)
    (h1 : effectiveLowPrice p ≤ p.listPrice)
    (h2 : p.listPrice ≤ effectiveHighPrice p) :
    (generatePriceMatrix p n).head? = some (effectiveLowPrice p) ∧
    (generatePriceMatrix p n).getLast? = some (effectiveHighPrice p) ∧
    (generatePriceMatrix p n).Chain' (· ≤ ·) ∧
    ∀ x ∈ generatePriceMatrix p n,
      effectiveLowPrice p ≤ x ∧ x ≤ effectiveHighPrice p := by
  set a := effectiveLowPrice p with ha
  set b := effectiveHighPrice p with hb
  set t := p.listPrice with htt
  have haq : (a : ℚ) ≤ (t : ℚ) := by exact_mod_cast h1
  have hbq : (t : ℚ) ≤ (b : ℚ) := by exact_mod_cast h2
  have hdef : generatePriceMatrix p n =
      if n = 2 then [a, b]
      else if n = 3 then [a, t, b]
      else if n = 4 then
        [a, jsRound ((a : ℚ) + ((t : ℚ) - (a : ℚ)) / 2),
         jsRound ((t : ℚ) + ((b : ℚ) - (t : ℚ)) / 2), b]
      else if n = 5 then
        [a, jsRound ((a : ℚ) + ((t : ℚ) - (a : ℚ)) / 3),
         jsRound ((a : ℚ) + 2 * ((t : ℚ) - (a : ℚ)) / 3),
         jsRound ((t : ℚ) + ((b : ℚ) - (t : ℚ)) / 3),
         jsRound ((t : ℚ) + 2 * ((b : ℚ) - (t : ℚ)) / 3), b]
      else [a, t, b] := rfl
  rw [hdef]
  split_ifs with hn2 hn3 hn4 hn5
  · refine ⟨rfl, rfl, ?_, ?_⟩
    · simp [List.chain'_cons]
      omega
    · intro x hx
      simp [List.mem_cons] at hx
      rcases hx with rfl | rfl <;> omega
  · refine ⟨rfl, rfl, ?_, ?_⟩
    · simp [List.chain'_cons]
      omega
    · intro x hx
      simp [List.mem_cons] at hx
      rcases hx with rfl | rfl | rfl <;> omega
  · have hq1l : a ≤ jsRound ((a : ℚ) + ((t : ℚ) - (a : ℚ)) / 2) :=
      le_jsRound a (by linarith)
    have hq1u : jsRound ((a : ℚ) + ((t : ℚ) - (a : ℚ)) / 2) ≤ t :=
      jsRound_le t (by linarith)
    have hq2l : t ≤ jsRound ((t : ℚ) + ((b : ℚ) - (t : ℚ)) / 2) :=
      le_jsRound t (by linarith)
    have hq2u : jsRound ((t : ℚ) + ((b : ℚ) - (t : ℚ)) / 2) ≤ b :=
      jsRound_le b (by linarith)
    refine ⟨rfl, rfl, ?_, ?_⟩
    · simp [List.chain'_cons]
      omega
    · intro x hx
      simp [List.mem_cons] at hx
      rcases hx with rfl | rfl | rfl | rfl <;> omega
  · have hp1l : a ≤ jsRound ((a : ℚ) + ((t : ℚ) - (a : ℚ)) / 3) :=
      le_jsRound a (by linarith)
    have hp1u : jsRound ((a : ℚ) + ((t : ℚ) - (a : ℚ)) / 3) ≤
        jsRound ((a : ℚ) + 2 * ((t : ℚ) - (a : ℚ)) / 3) :=
      jsRound_le_jsRound (by linarith)
    have hp2u : jsRound ((a : ℚ) + 2 * ((t : ℚ) - (a : ℚ)) / 3) ≤ t :=
      jsRound_le t (by linarith)
    have hp3l : t ≤ jsRound ((t : ℚ) + ((b : ℚ) - (t : ℚ)) / 3) :=
      le_jsRound t (by linarith)
    have hp3u : jsRound ((t : ℚ) + ((b : ℚ) - (t : ℚ)) / 3) ≤
        jsRound ((t : ℚ) + 2 * ((b : ℚ) - (t : ℚ)) / 3) :=
      jsRound_le_jsRound (by linarith)
    have hp4u : jsRound ((t : ℚ) + 2 * ((b : ℚ) - (t : ℚ)) / 3) ≤ b :=
      jsRound_le b (by linarith)
    have hp1a : a ≤ jsRound ((a : ℚ) + 2 * ((t : ℚ) - (a : ℚ)) / 3) :=
      le_jsRound a (by linarith)
    refine ⟨rfl, rfl, ?_, ?_⟩
    · simp [List.chain'_cons]
      omega
    · intro x hx
      simp [List.mem_cons] at hx
      rcases hx with rfl | rfl | rfl | rfl | rfl | rfl <;> omega
  · refine ⟨rfl, rfl, ?_, ?_⟩
    · simp [List.chain'_cons]
      omega
    · intro x hx
      simp [List.mem_cons] at hx
      rcases hx with rfl | rfl | rfl <;> omega

/-- C10 witness: the ordering bound instantiated on `demoProduct` with 5
configured levels. -/
theorem generatePriceMatrix_sorted_bounds_witness :
    (effectiveLowPrice demoProduct ≤ demoProduct.listPrice ∧
      demoProduct.listPrice ≤ effectiveHighPrice demoProduct) ∧
    (generatePriceMatrix demoProduct 5).Chain' (· ≤ ·) :=
  ⟨⟨by decide, by decide⟩,
    (generatePriceMatrix_sorted_bounds demoProduct 5 (by decide) (by decide)).2.2.1⟩

/-- C3: for every simulated run over a non-empty lineup (with distinct product
ids, as a lineup drawn from the products table has), the reported
`preferenceShare` values sum to exactly 1: each share is
`selections / totalSelections` when any selection was recorded and the uniform
`1 / products` otherwise. -/
theorem preferenceShares_sum_one (d : List Product) (sim : ℤ → SimResult)
    (hne : d ≠ []) (hid : (d.map Product.id).Nodup) :
    ((runSurveyResults d sim).map ReportedProduct.preferenceShare).sum = 1 := by
  have hlen : d.length ≠ 0 := fun h => hne (List.length_eq_zero.mp h)
  have hdedup : (d.map Product.id).dedup = d.map Product.id :=
    List.dedup_eq_self.mpr hid
  have htotal : (totalSelections d sim : ℚ) =
      (d.map fun p => ((sim p.id).selections : ℚ)).sum := by
    unfold totalSelections
    rw [hdedup, List.map_map, Nat.cast_list_sum, List.map_map]
    rfl
  by_cases htot : 0 < totalSelections d sim
  · have hT : (totalSelections d sim : ℚ) ≠ 0 :=
      Nat.cast_ne_zero.mpr (Nat.pos_iff_ne_zero.mp htot)
    have hmap : (runSurveyResults d sim).map ReportedProduct.preferenceShare =
        d.map fun p => ((sim p.id).selections : ℚ) / (totalSelections d sim : ℚ) := by
      simp only [runSurveyResults, List.map_map]
      refine List.map_congr_left ?_
      intro p hp
      simp [Function.comp, htot]
    rw [hmap, list_sum_map_div, ← htotal, div_self hT]
  · have h0 : totalSelections d sim = 0 := by omega
    have hmap : (runSurveyResults d sim).map ReportedProduct.preferenceShare =
        d.map fun _ => 1 / (d.length : ℚ) := by
      simp only [runSurveyResults, List.map_map]
      refine List.map_congr_left ?_
      intro p hp
      simp [Function.comp, h0]
    rw [hmap, list_sum_map_const]
    have : (d.length : ℚ) ≠ 0 := Nat.cast_ne_zero.mpr hlen
    field_simp

/-- C3 witness: the share identity on the concrete two-product lineup with
three recorded selections. -/
theorem preferenceShares_sum_one_witness :
    (demoLineup ≠ [] ∧ (demoLineup.map Product.id).Nodup) ∧
    ((runSurveyResults demoLineup demoSim).map ReportedProduct.preferenceShare).sum = 1 :=
  ⟨⟨by decide, by decide⟩,
    preferenceShares_sum_one demoLineup demoSim (by decide) (by decide)⟩

/-- C6: each reported `optimalPrice` is the arithmetic mean of the recorded
selection prices (in cents) divided by 100 and, for a product that was never
selected (empty recorded price list), the list price divided by 100. -/
theorem runSurvey_optimalPrice_spec (d : List Product) (sim : ℤ → SimResult) (i : ℕ) :
    ((runSurveyResults d sim)[i]?).map ReportedProduct.optimalPrice =
      (d[i]?).map fun p =>
        (if (sim p.id).prices = [] then ((p.listPrice : ℚ))
         else listMean (sim p.id).prices) / 100 := by
  unfold runSurveyResults
  rw [List.getElem?_map]
  cases h : d[i]? with
  | none => simp
  | some p =>
      simp only [Option.map_some]
      by_cases hpr : (sim p.id).prices = []
      · simp [hpr]
      · have hpos : 0 < (sim p.id).prices.length := List.length_pos.mpr hpr
        simp [hpr, hpos, listMean]

/-- C7 counterexample: a zero-list-price product is storable, and for it the
computed optimal price equals the list price (both 0) while, under JavaScript
division semantics, `priceChange = (0 - 0) / 0 = NaN`: the `=== 0` guard does
not fire and the function returns `NaN`, not 0 — the division by zero the
claim rules out happens, and the result is neither 0 nor a non-negative
number. -/
theorem calculatePriceElasticity_nan_at_zero_listPrice :
    calculateOptimalPrice 2 priceZeroAnalysis = priceZeroAnalysis.listPrice ∧
    calculatePriceElasticityJS 2 priceZeroAnalysis = JSNumber.nan ∧
    JSNumber.nan ≠ JSNumber.val 0 := by
  refine ⟨rfl, ?_, by decide⟩
  norm_num [calculatePriceElasticityJS, priceZeroAnalysis, calculateOptimalPrice,
    jsDivQ, jsDivFiniteBy, jsAbs, JSNumber.isZero]

/-- C7 (amended): for a product analysis with a non-zero list price and a
non-empty analysis, the exact rational model agrees with the
JavaScript-semantics model (no `NaN` or infinity arises), the elasticity is
never negative, it is 0 exactly when the computed optimal price equals the
list price, and otherwise it is the absolute quantity-change ratio over the
price-change ratio — the guarded division then has a non-zero divisor.  At a
zero list price the unguarded `priceChange` division divides by zero (see the
counterexample). -/
theorem calculatePriceElasticity_nonzero_list_spec (analysisTotal : ℕ)
    (pa : ProductAnalysis) (hl : pa.listPrice ≠ 0) (_ht : analysisTotal ≠ 0) :
    calculatePriceElasticityJS analysisTotal pa =
      JSNumber.val (calculatePriceElasticity analysisTotal pa) ∧
    0 ≤ calculatePriceElasticity analysisTotal pa ∧
    (calculateOptimalPrice analysisTotal pa = pa.listPrice →
      calculatePriceElasticity analysisTotal pa = 0) ∧
    (calculateOptimalPrice analysisTotal pa ≠ pa.listPrice →
      calculatePriceElasticity analysisTotal pa =
        |((((pa.responses.sum : ℚ) / (analysisTotal : ℚ)) - 1 / 2) / (1 / 2)) /
          (((calculateOptimalPrice analysisTotal pa : ℚ) - (pa.listPrice : ℚ)) /
            (pa.listPrice : ℚ))|) := by
  have hlq : ((pa.listPrice : ℚ)) ≠ 0 := Int.cast_ne_zero.mpr hl
  have hiff : (((calculateOptimalPrice analysisTotal pa : ℚ) - (pa.listPrice : ℚ)) /
      (pa.listPrice : ℚ) = 0) ↔ calculateOptimalPrice analysisTotal pa = pa.listPrice := by
    rw [div_eq_zero_iff]
    constructor
    · rintro (h | h)
      · exact_mod_cast sub_eq_zero.mp h
      · exact absurd h hlq
    · intro h
      left
      rw [h]
      ring
  have hagree : calculatePriceElasticityJS analysisTotal pa =
      JSNumber.val (calculatePriceElasticity analysisTotal pa) := by
    by_cases hz : ((calculateOptimalPrice analysisTotal pa : ℚ) - (pa.listPrice : ℚ)) /
        (pa.listPrice : ℚ) = 0
    · simp [calculatePriceElasticityJS, calculatePriceElasticity, jsDivQ, hlq,
        JSNumber.isZero, hz]
    · simp [calculatePriceElasticityJS, calculatePriceElasticity, jsDivQ, hlq,
        JSNumber.isZero, hz, jsDivFiniteBy, jsAbs]
  refine ⟨hagree, ?_, ?_, ?_⟩
  all_goals unfold calculatePriceElasticity
  all_goals by_cases h : ((calculateOptimalPrice analysisTotal pa : ℚ) - (pa.listPrice : ℚ)) /
      (pa.listPrice : ℚ) = 0
  · simp [h]
  · simp only [if_neg h]
    exact abs_nonneg _
  · intro _
    simp [h]
  · intro heq
    exact absurd (hiff.mpr heq) h
  · intro hne
    exact absurd (hiff.mp h) hne
  · intro _
    simp only [if_neg h]

/-- C7 witness: on the concrete analysis entry (4 responses out of 5, list
price 10.00) the two models agree and the elasticity is non-negative. -/
theorem calculatePriceElasticity_nonzero_list_spec_witness :
    (demoAnalysis.listPrice ≠ 0 ∧ (5 : ℕ) ≠ 0) ∧
    calculatePriceElasticityJS 5 demoAnalysis =
      JSNumber.val (calculatePriceElasticity 5 demoAnalysis) ∧
    0 ≤ calculatePriceElasticity 5 demoAnalysis :=
  ⟨⟨by decide, by decide⟩,
    (calculatePriceElasticity_nonzero_list_spec 5 demoAnalysis (by decide) (by decide)).1,
    (calculatePriceElasticity_nonzero_list_spec 5 demoAnalysis (by decide) (by decide)).2.1⟩

/-- C4: for an authenticated request, the configuration endpoint answers 400
and inserts nothing exactly when `priceLevels` is missing, not a number,
below 2 or above 5 (the validation runs before the shelf lookup), or when the
shelf exists with zero products; it answers 404 exactly when `priceLevels` is
valid and the shelf does not exist; and on success it inserts a row with
`combinationCount = priceLevels ^ products` and
`estimatedDuration = combinationCount * 30`. -/
theorem conjointConfiguration_endpoint_spec (u : ℤ) (v : JSVal)
    (shelf : Option (List Product)) :
    (postConjointConfiguration (some u) v shelf = ConjointConfigResponse.badRequest ↔
      invalidPriceLevels v = true ∨ ∃ ps, shelf = some ps ∧ ps = []) ∧
    (postConjointConfiguration (some u) v shelf = ConjointConfigResponse.notFound ↔
      invalidPriceLevels v = false ∧ shelf = none) ∧
    ∀ (q : ℚ) (ps : List Product), v = JSVal.num q → shelf = some ps →
      invalidPriceLevels v = false → ps ≠ [] →
      postConjointConfiguration (some u) v shelf =
        ConjointConfigResponse.ok ⟨q, q ^ ps.length, q ^ ps.length * 30⟩ := by
  rcases shelf with _ | ps
  · by_cases hv : invalidPriceLevels v
    · refine ⟨?_, ?_, ?_⟩
      · simp [postConjointConfiguration, hv]
      · simp [postConjointConfiguration, hv]
      · intro q ps hq hps
        exact absurd hps (by simp)
    · refine ⟨?_, ?_, ?_⟩
      · simp [postConjointConfiguration, hv]
      · simp [postConjointConfiguration, hv]
      · intro q ps hq hps
        exact absurd hps (by simp)
  · by_cases hv : invalidPriceLevels v
    · refine ⟨?_, ?_, ?_⟩
      · simp [postConjointConfiguration, hv]
      · simp [postConjointConfiguration, hv]
      · intro q ps2 hq hps hval
        rw [hval] at hv
        exact absurd hv (by simp)
    · by_cases hps : ps.length = 0
      · have hnil : ps = [] := List.length_eq_zero.mp hps
        refine ⟨?_, ?_, ?_⟩
        · simp [postConjointConfiguration, hv, hps, hnil]
        · simp [postConjointConfiguration, hv, hps]
        · intro q ps2 hq hps2 hval hne
          injection hps2 with h
          exact absurd (h ▸ hnil) hne
      · refine ⟨?_, ?_, ?_⟩
        · simp only [postConjointConfiguration, Option.isNone_some, Bool.false_eq_true,
            if_false, hv, if_neg hps]
          constructor
          · intro h
            exact absurd h (by simp)
          · rintro (h | ⟨ps2, hps2, rfl⟩)
            · exact absurd h (by simp [hv])
            · injection hps2 with h2
              exact absurd (h2.symm ▸ hps) (by simp [h2])
        · simp [postConjointConfiguration, hv, hps]
        · intro q ps2 hq hps2 hval hne
          injection hps2 with h2
          subst h2
          subst hq
          simp [postConjointConfiguration, hv, hps, jsToNum]

/-- C4 witness: a valid request (priceLevels 4, two-product shelf) inserts the
row `⟨4, 4 ^ 2, 4 ^ 2 * 30⟩`. -/
theorem conjointConfiguration_endpoint_spec_witness :
    (invalidPriceLevels (JSVal.num 4) = false ∧ demoLineup ≠ []) ∧
    postConjointConfiguration (some 7) (JSVal.num 4) (some demoLineup) =
      ConjointConfigResponse.ok ⟨4, 4 ^ demoLineup.length, 4 ^ demoLineup.length * 30⟩ :=
  ⟨⟨by decide, by decide⟩,
    (conjointConfiguration_endpoint_spec 7 (JSVal.num 4) (some demoLineup)).2.2 4
      demoLineup rfl rfl (by decide) (by decide)⟩
